import Mathlib

/-!
Verification of `packages/hurl/src/http/request_spec_curl_args.rs`: the
translation of a `RequestSpec` into curl command-line tokens, with its two
supporting encoders (POSIX-shell string encoding and URL percent-encoding).

Strings are modelled as Lean `String` (Rust `String` holds Unicode text),
byte sequences as `List Nat` with every element below 256 (Rust `Vec<u8>`).
-/

namespace Hurl

/-- The single-quote character (ASCII 39). -/
def quoteC : Char := Char.ofNat 39

/-- The backslash character (ASCII 92). -/
def backslashC : Char := Char.ofNat 92

/-- The newline character (ASCII 10). -/
def newlineC : Char := Char.ofNat 10

/-- The tab character (ASCII 9). -/
def tabC : Char := Char.ofNat 9

/-- UTF-8 encoding of one character, as byte values. Models Rust
`str::as_bytes` (Rust strings are UTF-8) on a per-`char` basis. -/
def utf8EncodeCharNat (c : Char) : List Nat :=
  let n := c.toNat
  if n < 128 then [n]
  else if n < 2048 then [192 + n / 64, 128 + n % 64]
  else if n < 65536 then [224 + n / 4096, 128 + n / 64 % 64, 128 + n % 64]
  else [240 + n / 262144, 128 + n / 4096 % 64, 128 + n / 64 % 64, 128 + n % 64]

/-- The UTF-8 bytes of a string: models Rust `str::as_bytes`. -/
def utf8Bytes (s : String) : List Nat :=
  s.data.flatMap utf8EncodeCharNat

/-- `struct Method(pub String)`: a textual HTTP verb. -/
structure Method where
  verb : String
deriving DecidableEq

/-- A header entry: name + value pair. -/
structure Header where
  name : String
  value : String
deriving DecidableEq

/-- A name/value parameter, used for query-string entries and form fields. -/
structure Param where
  name : String
  value : String
deriving DecidableEq

/-- A multipart file parameter: name, source filename and declared content
type (the byte-content field of the Rust struct is unused by this core and
omitted by the `..` pattern at the single match site). -/
structure FileParam where
  name : String
  filename : String
  content_type : String
deriving DecidableEq

/-- `enum MultipartParam`: a plain param or a file param. -/
inductive MultipartParam where
  | param (p : Param)
  | fileParam (f : FileParam)
deriving DecidableEq

/-- `enum Body`: text, binary bytes, or a file reference (byte placeholder
plus filename). -/
inductive Body where
  | text (s : String)
  | binary (bytes : List Nat)
  | file (bytes : List Nat) (filename : String)
deriving DecidableEq

/-- Modelled from the spec: the path-resolution collaborator (`ContextDir`
from `crate::util::path`, not part of this core). Its single capability is
"resolve a relative path into an absolute, displayable path string"; we keep
just that function. -/
structure ContextDir where
  resolved_path : String → String

/-- `Url`: holds a raw textual URL; `raw()` returns it unmodified. -/
structure Url where
  raw : String
deriving DecidableEq

/-- `RequestSpec`: the request description consumed by `curl_args`. -/
structure RequestSpec where
  method : Method
  url : Url
  headers : List Header
  querystring : List Param
  form : List Param
  multipart : List MultipartParam
  body : Body
  implicit_content_type : Option String

/-- Modelled from the spec: `Body::bytes` (declared in the http module, not
in this source file) returns the body's byte content; a `Text` body yields
its string's UTF-8 bytes, `Binary` its bytes, `File` its byte placeholder.
The spec treats zero-length content as "no body" throughout. -/
def Body.bytes : Body → List Nat
  | .text s => utf8Bytes s
  | .binary bs => bs
  | .file bs _ => bs

/-- The canonical header-name constant `CONTENT_TYPE`. -/
def CONTENT_TYPE : String := "Content-Type"

/-- Character-wise lowercasing: the model of Rust `str::to_lowercase`
restricted to ASCII, which is all the header-name comparison needs. -/
def lowercase (s : String) : String :=
  String.mk (s.data.map Char.toLower)

/-- Modelled from the spec and the repository's own test `requests_curl_args`:
`HeaderVec::contains_key` (declared in the http module, not in this source
file) checks whether a header with the given name is present. The spec's §3
calls the "Content-Type" presence check case-sensitive, but the in-repo test
expects `json_request` (whose only header is named "content-type", with an
implicit content type of "application/json") to produce no inferred
Content-Type header pair, which forces a case-insensitive name comparison
(Rust `str::to_lowercase` applied to both sides before comparing). -/
def HeaderVec.contains_key (headers : List Header) (name : String) : Bool :=
  headers.any (fun h => lowercase h.name == lowercase name)

/-- `encode_byte`: one byte as `\xHH`, two lowercase zero-padded hex digits
(Rust `format!("\\x{b:02x}")`; a `u8` always prints as exactly two digits,
so we take the low 8 bits' two digits). -/
def lowerHexDigit (n : Nat) : Char :=
  if n < 10 then Char.ofNat (48 + n) else Char.ofNat (87 + n)

/-- Uppercase hexadecimal digit for a value below 16. -/
def upperHexDigit (n : Nat) : Char :=
  if n < 10 then Char.ofNat (48 + n) else Char.ofNat (55 + n)

/-- `encode_byte(b)`: the four characters backslash, `x`, and the two
lowercase hex digits of the byte. -/
def encode_byte (b : Nat) : String :=
  String.mk [backslashC, 'x', lowerHexDigit (b / 16 % 16), lowerHexDigit (b % 16)]

/-- `encode_bytes`: concatenation of `encode_byte` over the bytes. -/
def encode_bytes (bytes : List Nat) : String :=
  String.join (bytes.map encode_byte)

/-- Whether a byte value is an ASCII alphanumeric (0-9, A-Z, a-z). -/
def isAlnumByte (b : Nat) : Bool :=
  (48 ≤ b && b ≤ 57) || (65 ≤ b && b ≤ 90) || (97 ≤ b && b ≤ 122)

/-- Modelled from the spec: `percent_encoding::percent_encode` with the
`NON_ALPHANUMERIC` ascii set (an external crate) percent-encodes every byte
that is not an ASCII alphanumeric as `%XX` with two uppercase hex digits,
and passes ASCII alphanumeric bytes through unchanged. -/
def percentEncodeByte (b : Nat) : List Char :=
  if isAlnumByte b then [Char.ofNat b]
  else ['%', upperHexDigit (b / 16 % 16), upperHexDigit (b % 16)]

/-- Percent-encoding of a byte sequence. -/
def escape_url_bytes (bs : List Nat) : String :=
  String.mk (bs.flatMap percentEncodeByte)

/-- `escape_url(s)`: percent-encode the UTF-8 bytes of `s`. -/
def escape_url (s : String) : String :=
  escape_url_bytes (utf8Bytes s)

/-- `escape_mode`: the shell string must use the escaped form if it contains
a newline, a tab or a single quote. -/
def escape_mode (s : String) : Bool :=
  s.data.any (fun c => c == newlineC || c == tabC || c == quoteC)

/-- The escape table of `escape_string`, per character: newline, tab,
single quote and backslash map to two-character escape sequences, every
other character passes through. -/
def escapeChar (c : Char) : List Char :=
  if c = newlineC then [backslashC, 'n']
  else if c = tabC then [backslashC, 't']
  else if c = quoteC then [backslashC, quoteC]
  else if c = backslashC then [backslashC, backslashC]
  else [c]

/-- `escape_string` at the character-list level. -/
def escape_string_list (cs : List Char) : List Char :=
  cs.flatMap escapeChar

/-- `escape_string(s)`: each character replaced by its escape sequence. -/
def escape_string (s : String) : String :=
  String.mk (escape_string_list s.data)

/-- `encode_shell_string(s)`: ANSI-C quoted form when escaping is needed,
plain single-quoted form otherwise. -/
def encode_shell_string (s : String) : String :=
  if escape_mode s then "$'" ++ escape_string s ++ "'" else "'" ++ s ++ "'"

/-- `Method::curl_args(data)`: verb dispatch by exact string match. -/
def Method.curl_args (m : Method) (data : Bool) : List String :=
  if m.verb = "GET" then
    (if data then ["--request", "GET"] else [])
  else if m.verb = "HEAD" then ["--head"]
  else if m.verb = "POST" then
    (if data then [] else ["--request", "POST"])
  else ["--request", m.verb]

/-- `Header::curl_args`: `--header` plus the shell-encoded "name: value". -/
def Header.curl_args (h : Header) : List String :=
  ["--header", encode_shell_string (h.name ++ ": " ++ h.value)]

/-- `Param::curl_arg_escape`: `name=value` with the value percent-encoded. -/
def Param.curl_arg_escape (p : Param) : String :=
  p.name ++ "=" ++ escape_url p.value

/-- `Param::curl_arg`: `name=value` literal, no encoding. -/
def Param.curl_arg (p : Param) : String :=
  p.name ++ "=" ++ p.value

/-- `MultipartParam::curl_arg`: a plain param delegates to `Param::curl_arg`;
a file param renders `name=@<resolved path>;type=<content type>`. -/
def MultipartParam.curl_arg (mp : MultipartParam) (context_dir : ContextDir) : String :=
  match mp with
  | .param p => p.curl_arg
  | .fileParam f =>
    f.name ++ "=" ++ "@" ++ context_dir.resolved_path f.filename ++ ";type=" ++ f.content_type

/-- `Body::curl_arg`: text through the shell encoder, binary as ANSI-C
`$'\xHH...'`, file as `'@<resolved path>'`. -/
def Body.curl_arg (b : Body) (context_dir : ContextDir) : String :=
  match b with
  | .text s => encode_shell_string s
  | .binary bytes => "$'" ++ encode_bytes bytes ++ "'"
  | .file _ filename => "'@" ++ context_dir.resolved_path filename ++ "'"

/-- The `has_payload` flag (local `data` in the source): multipart list
non-empty, or form list non-empty, or body bytes non-empty. -/
def RequestSpec.has_payload (r : RequestSpec) : Bool :=
  !r.multipart.isEmpty || !r.form.isEmpty || !r.body.bytes.isEmpty

/-- The Content-Type inference result when the guard passes: the inner match
of the `if !has_explicit_content_type` block of `curl_args`. -/
def inferredContentType (r : RequestSpec) : List String :=
  match r.implicit_content_type with
  | some content_type =>
    if content_type != "application/x-www-form-urlencoded"
        && content_type != "multipart/form-data" then
      ["--header", "'" ++ CONTENT_TYPE ++ ": " ++ content_type ++ "'"]
    else []
  | none =>
    if !r.body.bytes.isEmpty then
      match r.body with
      | .text _ => ["--header", "'" ++ CONTENT_TYPE ++ ":'"]
      | .binary _ => ["--header", "'" ++ CONTENT_TYPE ++ ": application/octet-stream'"]
      | .file _ _ => ["--header", "'" ++ CONTENT_TYPE ++ ":'"]
    else []

/-- The Content-Type inference step of `curl_args`: skipped entirely when an
explicit Content-Type header is present. -/
def contentTypeArgs (r : RequestSpec) : List String :=
  if HeaderVec.contains_key r.headers CONTENT_TYPE then []
  else inferredContentType r

/-- The body-transfer step of `curl_args`: when the body bytes are non-empty,
`--data-binary` for a file body and `--data` otherwise, then the body's
rendered value. -/
def bodyArgs (r : RequestSpec) (context_dir : ContextDir) : List String :=
  if !r.body.bytes.isEmpty then
    [(match r.body with
      | .file _ _ => "--data-binary"
      | _ => "--data"),
     r.body.curl_arg context_dir]
  else []

/-- Rust `Vec::join` on strings with a separator, used for the query string
(`params.join("&")`). -/
def joinAmp : List String → String
  | [] => ""
  | [a] => a
  | a :: rest => a ++ "&" ++ joinAmp rest

/-- The joined query string: empty when there are no query parameters, else
the percent-encoded `name=value` renderings joined with `&`. -/
def querystringJoined (r : RequestSpec) : String :=
  if r.querystring.isEmpty then ""
  else joinAmp (r.querystring.map Param.curl_arg_escape)

/-- The final URL of `curl_args`: the raw URL when the joined query string is
empty, else the raw URL joined to it with `&` if the raw URL contains a
literal question mark, else with `?`. -/
def finalUrl (r : RequestSpec) : String :=
  let querystring := querystringJoined r
  if querystring = "" then r.url.raw
  else if r.url.raw.data.contains '?' then r.url.raw ++ "&" ++ querystring
  else r.url.raw ++ "?" ++ querystring

/-- `RequestSpec::curl_args`: the full ordered token sequence. The source
builds the vector by successive appends; this is the same sequence written
as one concatenation, with each step factored into a named definition. -/
def RequestSpec.curl_args (r : RequestSpec) (context_dir : ContextDir) : List String :=
  r.method.curl_args r.has_payload
    ++ r.headers.flatMap Header.curl_args
    ++ contentTypeArgs r
    ++ r.form.flatMap (fun p => ["--data", "'" ++ p.curl_arg_escape ++ "'"])
    ++ r.multipart.flatMap (fun p => ["--form", "'" ++ p.curl_arg context_dir ++ "'"])
    ++ bodyArgs r context_dir
    ++ ["'" ++ finalUrl r ++ "'"]

/-- Reversal of one entry of the escape table: the character standing after
a backslash in the ANSI-C encoded form maps back to the escaped character. -/
def unescapeEscapedChar (d : Char) : Char :=
  if d = 'n' then newlineC
  else if d = 't' then tabC
  else if d = quoteC then quoteC
  else if d = backslashC then backslashC
  else d

/-- Decoder for the ANSI-C escaped form: a backslash consumes the next
character through the reversed escape table, any other character passes
through unchanged. -/
def unescapeChars : List Char → List Char
  | [] => []
  | c :: rest =>
    if c = backslashC then
      match rest with
      | [] => [c]
      | d :: rest2 => unescapeEscapedChar d :: unescapeChars rest2
    else c :: unescapeChars rest

/-- String-level decoder for the ANSI-C escaped form. -/
def unescape_string (t : String) : String :=
  String.mk (unescapeChars t.data)

/-- Whether a character is an uppercase hexadecimal digit (0-9 or A-F). -/
def isUpperHexChar (c : Char) : Bool :=
  c.isDigit || (65 ≤ c.toNat && c.toNat ≤ 70)

/-- A no-op path-resolution collaborator, matching `ContextDir::default()`
in the repository's tests (relative filenames resolve to themselves). -/
def defaultCtx : ContextDir := ⟨fun s => s⟩

/-- The `json_request` fixture of the repository's test `requests_curl_args`:
method POST, one header named "content-type" (lowercase), a JSON text body
and an implicit content type of "application/json". -/
def json_request : RequestSpec :=
  ⟨⟨"POST"⟩, ⟨"http://localhost/json"⟩,
   [⟨"content-type", "application/vnd.api+json"⟩],
   [], [], [], .text "\x7b\"foo\":\"bar\"\x7d", some "application/json"⟩

/-- The `form_http_request` fixture of the repository's tests: POST with an
explicit Content-Type header, two form parameters and an implicit content
type of "multipart/form-data". -/
def form_http_request : RequestSpec :=
  ⟨⟨"POST"⟩, ⟨"http://localhost/form-params"⟩,
   [⟨"Content-Type", "application/x-www-form-urlencoded"⟩], [],
   [⟨"param1", "value1"⟩, ⟨"param2", "a b"⟩], [], .text "",
   some "multipart/form-data"⟩

/-- Modelled from the spec: end-to-end scenario A of §8, a plain GET with
no headers, no body and no query parameters. -/
def hello_http_request : RequestSpec :=
  ⟨⟨"GET"⟩, ⟨"http://localhost:8000/hello"⟩, [], [], [], [], .text "", none⟩

/-- Modelled from the spec: end-to-end scenario B of §8, a GET with query
parameters `param1=value1` and `param2=a b`. -/
def query_http_request : RequestSpec :=
  ⟨⟨"GET"⟩, ⟨"http://localhost:8000/querystring-params"⟩, [],
   [⟨"param1", "value1"⟩, ⟨"param2", "a b"⟩], [], [], .text "", none⟩

/-- The first request of the repository's test `post_data_curl_args`:
POST with text body "foo" and nothing else. -/
def post_text_request : RequestSpec :=
  ⟨⟨"POST"⟩, ⟨"http://localhost:8000/hello"⟩, [], [], [], [], .text "foo", none⟩

/-- The second request of the repository's test `post_data_curl_args`:
POST with a file body (bytes of "Hello World!", filename "foo.bin"). -/
def post_file_request : RequestSpec :=
  ⟨⟨"POST"⟩, ⟨"http://localhost:8000/hello"⟩, [], [], [], [],
   .file (utf8Bytes "Hello World!") "foo.bin", none⟩

/-- A HEAD request with no headers, no body and no query parameters. -/
def head_empty_request : RequestSpec :=
  ⟨⟨"HEAD"⟩, ⟨"http://localhost:8000/"⟩, [], [], [], [], .text "", none⟩

/-- A GET request with one form parameter and no headers, no body bytes and
no query parameters. -/
def get_form_request : RequestSpec :=
  ⟨⟨"GET"⟩, ⟨"http://localhost:8000/"⟩, [], [], [⟨"p", "v"⟩], [], .text "", none⟩

/-- A GET request with an implicit content type and no headers, no body and
no query parameters. -/
def get_implicit_ct_request : RequestSpec :=
  ⟨⟨"GET"⟩, ⟨"http://localhost:8000/"⟩, [], [], [], [], .text "",
   some "application/json"⟩

/-- A GET request that is empty in every respect. -/
def get_empty_request : RequestSpec :=
  ⟨⟨"GET"⟩, ⟨"http://localhost:8000/"⟩, [], [], [], [], .text "", none⟩

/-- A POST request whose body is a `File` variant with a zero-length byte
placeholder. -/
def post_empty_file_request : RequestSpec :=
  ⟨⟨"POST"⟩, ⟨"http://localhost:8000/hello"⟩, [], [], [], [],
   .file [] "secret.bin", none⟩

end Hurl

namespace Hurl

set_option maxRecDepth 8192

/-! Validation: the embedding replays every expectation of the repository's
own tests in `request_spec_curl_args.rs`. -/

/-- Replay of the test `requests_curl_args` (and of §8 scenarios A and B):
the five fixture requests produce exactly the token lists the repository's
test expects. -/
theorem curl_args_replays_repo_tests :
    RequestSpec.curl_args hello_http_request defaultCtx
      = ["'http://localhost:8000/hello'"]
    ∧ RequestSpec.curl_args query_http_request defaultCtx
      = ["'http://localhost:8000/querystring-params?param1=value1&param2=a%20b'"]
    ∧ RequestSpec.curl_args form_http_request defaultCtx
      = ["--header", "'Content-Type: application/x-www-form-urlencoded'",
         "--data", "'param1=value1'", "--data", "'param2=a%20b'",
         "'http://localhost/form-params'"]
    ∧ RequestSpec.curl_args json_request defaultCtx
      = ["--header", "'content-type: application/vnd.api+json'",
         "--data", "'\x7b\"foo\":\"bar\"\x7d'", "'http://localhost/json'"]
    ∧ RequestSpec.curl_args get_empty_request defaultCtx
      = ["'http://localhost:8000/'"] := by
  refine ⟨?_, ?_, ?_, ?_, ?_⟩ <;> decide

/-- Replay of the test `post_data_curl_args`: the POST-with-text-body and
POST-with-file-body requests produce the expected tokens. -/
theorem curl_args_replays_post_data_tests :
    RequestSpec.curl_args post_text_request defaultCtx
      = ["--header", "'Content-Type:'", "--data", "'foo'",
         "'http://localhost:8000/hello'"]
    ∧ RequestSpec.curl_args post_file_request defaultCtx
      = ["--header", "'Content-Type:'", "--data-binary", "'@foo.bin'",
         "'http://localhost:8000/hello'"] := by
  exact ⟨by decide, by decide⟩

/-- Replay of the encoder tests `test_encode_byte`, `test_encode_body`,
`test_encode_shell_string`, `test_escape_string`, `test_escape_mode` and
`param_curl_args`. -/
theorem encoders_replay_repo_tests :
    encode_byte 1 = "\\x01" ∧ encode_byte 32 = "\\x20"
    ∧ Body.curl_arg (.text "hello") defaultCtx = "'hello'"
    ∧ Body.curl_arg (.binary [1, 2, 3]) defaultCtx = "$'\\x01\\x02\\x03'"
    ∧ encode_shell_string "hello" = "'hello'"
    ∧ encode_shell_string "\\n" = "'\\n'"
    ∧ encode_shell_string "'" = "$'\\''"
    ∧ encode_shell_string "\\'" = "$'\\\\\\''"
    ∧ encode_shell_string "\n" = "$'\\n'"
    ∧ escape_string "hello" = "hello"
    ∧ escape_string "\\n" = "\\\\n"
    ∧ escape_string "'" = "\\'"
    ∧ escape_string "\\'" = "\\\\\\'"
    ∧ escape_string "\n" = "\\n"
    ∧ escape_mode "hello" = false
    ∧ escape_mode "\\" = false
    ∧ escape_mode "'" = true
    ∧ escape_mode "\n" = true
    ∧ Param.curl_arg_escape ⟨"param3", "a=b"⟩ = "param3=a%3Db"
    ∧ Param.curl_arg_escape ⟨"param4", "1,2,3"⟩ = "param4=1%2C2%2C3" := by
  decide

/-! C5: the plain-quoted branch of the shell encoder. -/

/-- C5: for every string without newline, tab or single-quote characters,
`encode_shell_string` returns the string wrapped in single quotes with all
its characters (backslashes included) unchanged. -/
theorem c5_shell_encoder_plain (s : String)
    (h : ∀ c ∈ s.data, c ≠ newlineC ∧ c ≠ tabC ∧ c ≠ quoteC) :
    encode_shell_string s = "'" ++ s ++ "'" := by
  have hm : escape_mode s = false := by
    simp only [escape_mode, List.any_eq_false, Bool.or_eq_true, beq_iff_eq]
    intro c hc
    rcases h c hc with ⟨h1, h2, h3⟩
    simp [h1, h2, h3]
  simp [encode_shell_string, hm]

/-- Witness for C5 at the concrete string "a\b$x" (backslash preserved). -/
theorem c5_shell_encoder_plain_witness :
    encode_shell_string "a\\b$x" = "'" ++ "a\\b$x" ++ "'" :=
  c5_shell_encoder_plain "a\\b$x" (by decide)

/-! C6: the ANSI-C quoted branch of the shell encoder and its decoder. -/

/-- Decoding a backslash-led pair takes the reversed escape table. -/
theorem unescapeChars_backslash (d : Char) (rest : List Char) :
    unescapeChars (backslashC :: d :: rest)
      = unescapeEscapedChar d :: unescapeChars rest := by
  simp [unescapeChars]

/-- Decoding passes a non-backslash character through. -/
theorem unescapeChars_pass (c : Char) (h : c ≠ backslashC) (rest : List Char) :
    unescapeChars (c :: rest) = c :: unescapeChars rest := by
  cases rest <;> simp [unescapeChars, h]

/-- The decoder inverts `escape_string` on every character list. -/
theorem unescape_escape_list (cs : List Char) :
    unescapeChars (escape_string_list cs) = cs := by
  induction cs with
  | nil => rfl
  | cons c cs ih =>
    have ih2 : unescapeChars (cs.flatMap escapeChar) = cs := ih
    rw [escape_string_list, List.flatMap_cons]
    by_cases h1 : c = newlineC
    · subst h1
      rw [show escapeChar newlineC ++ cs.flatMap escapeChar
            = backslashC :: 'n' :: cs.flatMap escapeChar from rfl,
        unescapeChars_backslash, show unescapeEscapedChar 'n' = newlineC from rfl, ih2]
    · by_cases h2 : c = tabC
      · subst h2
        rw [show escapeChar tabC ++ cs.flatMap escapeChar
              = backslashC :: 't' :: cs.flatMap escapeChar from rfl,
          unescapeChars_backslash, show unescapeEscapedChar 't' = tabC from rfl, ih2]
      · by_cases h3 : c = quoteC
        · subst h3
          rw [show escapeChar quoteC ++ cs.flatMap escapeChar
                = backslashC :: quoteC :: cs.flatMap escapeChar from rfl,
            unescapeChars_backslash,
            show unescapeEscapedChar quoteC = quoteC from rfl, ih2]
        · by_cases h4 : c = backslashC
          · subst h4
            rw [show escapeChar backslashC ++ cs.flatMap escapeChar
                  = backslashC :: backslashC :: cs.flatMap escapeChar from rfl,
              unescapeChars_backslash,
              show unescapeEscapedChar backslashC = backslashC from rfl, ih2]
          · rw [show escapeChar c = [c] from by simp [escapeChar, h1, h2, h3, h4]]
            rw [List.singleton_append, unescapeChars_pass c h4]
            exact congrArg _ ih2

/-- C6: for every string containing a newline, tab or single quote, the
shell encoder produces the ANSI-C form: the `$'`-prefixed, `'`-suffixed
token around `escape_string`, and reversing the escape table on that middle
portion recovers the original string exactly. -/
theorem c6_shell_encoder_escaped (s : String)
    (h : ∃ c ∈ s.data, c = newlineC ∨ c = tabC ∨ c = quoteC) :
    encode_shell_string s = "$'" ++ escape_string s ++ "'"
    ∧ unescape_string (escape_string s) = s := by
  have hm : escape_mode s = true := by
    rcases h with ⟨c, hc, hor⟩
    simp only [escape_mode, List.any_eq_true]
    refine ⟨c, hc, ?_⟩
    rcases hor with h | h | h <;> simp [h]
  refine ⟨by simp [encode_shell_string, hm], ?_⟩
  show String.mk (unescapeChars (escape_string s).data) = s
  rw [show (escape_string s).data = escape_string_list s.data from rfl,
    unescape_escape_list]

/-- Witness for C6 at the concrete string "it's" (single quote present). -/
theorem c6_shell_encoder_escaped_witness :
    encode_shell_string "it's" = "$'" ++ escape_string "it's" ++ "'"
    ∧ unescape_string (escape_string "it's") = "it's" :=
  c6_shell_encoder_escaped "it's" (by decide)

/-! C7: the URL percent-encoder. -/

/-- Bridge between the character and byte classifiers: an ASCII-alphanumeric
character has an ASCII-alphanumeric code point below 128. -/
theorem alnum_char_byte (c : Char) (h : c.isAlphanum = true) :
    isAlnumByte c.toNat = true ∧ c.toNat < 128 := by
  simp only [Char.isAlphanum, Char.isAlpha, Char.isDigit, Char.isUpper, Char.isLower,
    Bool.or_eq_true, Bool.and_eq_true, decide_eq_true_eq, ge_iff_le] at h
  simp only [isAlnumByte, Char.toNat, Bool.or_eq_true, Bool.and_eq_true, decide_eq_true_eq]
  rcases h with (⟨a1, a2⟩ | ⟨a1, a2⟩) | ⟨a1, a2⟩
  · have b1 : 65 ≤ c.val.toNat := a1
    have b2 : c.val.toNat ≤ 90 := a2
    exact ⟨by omega, by omega⟩
  · have b1 : 97 ≤ c.val.toNat := a1
    have b2 : c.val.toNat ≤ 122 := a2
    exact ⟨by omega, by omega⟩
  · have b1 : 48 ≤ c.val.toNat := a1
    have b2 : c.val.toNat ≤ 57 := a2
    exact ⟨by omega, by omega⟩

/-- A list of alphanumeric characters passes through the UTF-8 and
percent-encoding pipeline unchanged. -/
theorem alnum_list_escape (cs : List Char) (h : ∀ c ∈ cs, c.isAlphanum = true) :
    (cs.flatMap utf8EncodeCharNat).flatMap percentEncodeByte = cs := by
  induction cs with
  | nil => rfl
  | cons c cs ih =>
    obtain ⟨hb, hlt⟩ := alnum_char_byte c (h c (by simp))
    rw [List.flatMap_cons,
      show utf8EncodeCharNat c = [c.toNat] from by simp [utf8EncodeCharNat, hlt],
      List.singleton_append, List.flatMap_cons,
      show percentEncodeByte c.toNat = [Char.ofNat c.toNat] from by
        simp [percentEncodeByte, hb],
      Char.ofNat_toNat, List.singleton_append]
    exact congrArg _ (ih (fun x hx => h x (by simp [hx])))

/-- C7: the URL percent-encoder leaves ASCII-alphanumeric bytes unchanged
and maps every other byte to a percent sign plus two uppercase hex digits;
its output therefore contains only alphanumerics and percent signs, and it
is the identity (hence idempotent) on all-alphanumeric strings. -/
theorem c7_url_encoder_spec :
    (∀ b, b < 256 → isAlnumByte b = true → percentEncodeByte b = [Char.ofNat b])
    ∧ (∀ b, b < 256 → isAlnumByte b = false →
        percentEncodeByte b = ['%', upperHexDigit (b / 16), upperHexDigit (b % 16)]
        ∧ isUpperHexChar (upperHexDigit (b / 16)) = true
        ∧ isUpperHexChar (upperHexDigit (b % 16)) = true)
    ∧ (∀ bs : List Nat, (∀ b ∈ bs, b < 256) →
        ∀ c ∈ (escape_url_bytes bs).data, c.isAlphanum = true ∨ c = '%')
    ∧ (∀ s : String, (∀ c ∈ s.data, c.isAlphanum = true) → escape_url s = s)
    ∧ (∀ s : String, (∀ c ∈ s.data, c.isAlphanum = true) →
        escape_url (escape_url s) = escape_url s) := by
  have h1 : ∀ b, b < 256 → isAlnumByte b = true →
      percentEncodeByte b = [Char.ofNat b] := by decide
  have h2 : ∀ b, b < 256 → isAlnumByte b = false →
      percentEncodeByte b = ['%', upperHexDigit (b / 16), upperHexDigit (b % 16)]
      ∧ isUpperHexChar (upperHexDigit (b / 16)) = true
      ∧ isUpperHexChar (upperHexDigit (b % 16)) = true := by decide
  have h3 : ∀ b, b < 256 → ∀ c ∈ percentEncodeByte b,
      c.isAlphanum = true ∨ c = '%' := by decide
  have h4 : ∀ s : String, (∀ c ∈ s.data, c.isAlphanum = true) → escape_url s = s := by
    intro s hs
    show escape_url_bytes (utf8Bytes s) = s
    rw [escape_url_bytes, utf8Bytes, alnum_list_escape s.data hs]
  refine ⟨h1, h2, ?_, h4, ?_⟩
  · intro bs hbs c hc
    have hmem : c ∈ bs.flatMap percentEncodeByte := hc
    rw [List.mem_flatMap] at hmem
    obtain ⟨b, hb, hcb⟩ := hmem
    exact h3 b (hbs b hb) c hcb
  · intro s hs
    rw [h4 s hs]
    exact h4 s hs

/-- Witness for C7: the general theorem applied at byte 65 (alphanumeric),
byte 32 (space), the byte list of "a b", and the string "abc123". -/
theorem c7_url_encoder_spec_witness :
    percentEncodeByte 65 = [Char.ofNat 65]
    ∧ (percentEncodeByte 32 = ['%', upperHexDigit 2, upperHexDigit 0]
       ∧ isUpperHexChar (upperHexDigit 2) = true
       ∧ isUpperHexChar (upperHexDigit 0) = true)
    ∧ (∀ c ∈ (escape_url_bytes [97, 32, 98]).data, c.isAlphanum = true ∨ c = '%')
    ∧ escape_url "abc123" = "abc123"
    ∧ escape_url (escape_url "abc123") = escape_url "abc123" :=
  ⟨c7_url_encoder_spec.1 65 (by decide) (by decide),
   c7_url_encoder_spec.2.1 32 (by decide) (by decide),
   c7_url_encoder_spec.2.2.1 [97, 32, 98] (by decide),
   c7_url_encoder_spec.2.2.2.1 "abc123" (by decide),
   c7_url_encoder_spec.2.2.2.2 "abc123" (by decide)⟩

/-! C2: method dispatch and the has_payload flag. -/

/-- C2: method rendering depends only on the verb string and the payload
flag, with the GET/POST/HEAD special cases and the explicit-verb fallback;
the flag passed by `curl_args` is true exactly when the multipart list, the
form list or the body bytes are non-empty. -/
theorem c2_method_dispatch :
    Method.curl_args ⟨"GET"⟩ true = ["--request", "GET"]
    ∧ Method.curl_args ⟨"GET"⟩ false = []
    ∧ Method.curl_args ⟨"POST"⟩ true = []
    ∧ Method.curl_args ⟨"POST"⟩ false = ["--request", "POST"]
    ∧ (∀ d : Bool, Method.curl_args ⟨"HEAD"⟩ d = ["--head"])
    ∧ (∀ v : String, v ≠ "GET" → v ≠ "POST" → v ≠ "HEAD" →
        ∀ d : Bool, Method.curl_args ⟨v⟩ d = ["--request", v])
    ∧ (∀ r : RequestSpec,
        (r.has_payload = true ↔
          (r.multipart ≠ [] ∨ r.form ≠ [] ∨ 0 < r.body.bytes.length))
        ∧ ∀ ctx : ContextDir, ∃ rest : List String,
            RequestSpec.curl_args r ctx
              = r.method.curl_args r.has_payload ++ rest) := by
  refine ⟨by decide, by decide, by decide, by decide, ?_, ?_, ?_⟩
  · intro d
    cases d <;> decide
  · intro v h1 h2 h3 d
    simp [Method.curl_args, h1, h2, h3]
  · intro r
    constructor
    · simp only [RequestSpec.has_payload, Bool.or_eq_true, Bool.not_eq_true',
        List.isEmpty_eq_false, ne_eq, List.length_pos]
      tauto
    · intro ctx
      refine ⟨r.headers.flatMap Header.curl_args ++ contentTypeArgs r
        ++ r.form.flatMap (fun p => ["--data", "'" ++ p.curl_arg_escape ++ "'"])
        ++ r.multipart.flatMap (fun p => ["--form", "'" ++ p.curl_arg ctx ++ "'"])
        ++ bodyArgs r ctx ++ ["'" ++ finalUrl r ++ "'"], ?_⟩
      simp [RequestSpec.curl_args, List.append_assoc]

/-- Witness for C2: the fallback rule applied at the concrete verb "PUT"
with both flag values. -/
theorem c2_method_dispatch_witness :
    Method.curl_args ⟨"PUT"⟩ true = ["--request", "PUT"]
    ∧ Method.curl_args ⟨"PUT"⟩ false = ["--request", "PUT"] :=
  ⟨c2_method_dispatch.2.2.2.2.2.1 "PUT" (by decide) (by decide) (by decide) true,
   c2_method_dispatch.2.2.2.2.2.1 "PUT" (by decide) (by decide) (by decide) false⟩

/-! C3: the guard of the Content-Type inference step. The claim asserts a
case-sensitive presence check; the repository's own test `requests_curl_args`
(the `json_request` case) shows the check is case-insensitive. -/

/-- C3 counterexample: `json_request` carries a header named "content-type"
(differing from "Content-Type" only in letter case) and an implicit content
type of "application/json"; contrary to the claim, the inference step is
suppressed — its token "'Content-Type: application/json'" never appears,
exactly as the repository's own test expects. -/
theorem c3_counterexample :
    RequestSpec.curl_args json_request defaultCtx
      = ["--header", "'content-type: application/vnd.api+json'",
         "--data", "'\x7b\"foo\":\"bar\"\x7d'", "'http://localhost/json'"]
    ∧ "'Content-Type: application/json'" ∉ RequestSpec.curl_args json_request defaultCtx := by
  exact ⟨by decide, by decide⟩

/-- C3 amended: the Content-Type inference step is skipped if and only if
the headers contain an entry whose name equals "Content-Type" under an
ASCII case-insensitive comparison; a header differing only in letter case
does count as present and does suppress the inference step. -/
theorem c3_amended_case_insensitive (r : RequestSpec) :
    (HeaderVec.contains_key r.headers CONTENT_TYPE = true
      ↔ ∃ h ∈ r.headers, lowercase h.name = "content-type")
    ∧ contentTypeArgs r
      = (if r.headers.any (fun h => lowercase h.name == "content-type") then []
         else inferredContentType r) := by
  constructor
  · simp [HeaderVec.contains_key, List.any_eq_true,
      show lowercase CONTENT_TYPE = "content-type" from by decide]
  · rw [contentTypeArgs, HeaderVec.contains_key,
      show lowercase CONTENT_TYPE = "content-type" from by decide]

/-! C4: the Content-Type inference step itself. -/

/-- C4: with no explicit Content-Type header, the inference step emits the
verbatim `--header 'Content-Type: <type>'` pair for an implicit type other
than the two form encodings, nothing for those two, the body-driven fallback
headers when no implicit type is set and the body is non-empty, and nothing
when no implicit type is set and the body is empty; the step's tokens appear
as one contiguous segment of `curl_args`. -/
theorem c4_content_type_inference (r : RequestSpec)
    (hno : HeaderVec.contains_key r.headers CONTENT_TYPE = false) :
    (∀ ct, r.implicit_content_type = some ct →
        ct ≠ "application/x-www-form-urlencoded" → ct ≠ "multipart/form-data" →
        contentTypeArgs r = ["--header", "'Content-Type: " ++ ct ++ "'"])
    ∧ (∀ ct, r.implicit_content_type = some ct →
        (ct = "application/x-www-form-urlencoded" ∨ ct = "multipart/form-data") →
        contentTypeArgs r = [])
    ∧ (r.implicit_content_type = none → r.body.bytes ≠ [] →
        (∀ s, r.body = .text s → contentTypeArgs r = ["--header", "'Content-Type:'"])
        ∧ (∀ bs, r.body = .binary bs →
            contentTypeArgs r = ["--header", "'Content-Type: application/octet-stream'"])
        ∧ (∀ bs fn, r.body = .file bs fn →
            contentTypeArgs r = ["--header", "'Content-Type:'"]))
    ∧ (r.implicit_content_type = none → r.body.bytes = [] → contentTypeArgs r = [])
    ∧ (∀ ctx : ContextDir, ∃ pre post : List String,
        RequestSpec.curl_args r ctx = pre ++ contentTypeArgs r ++ post) := by
  refine ⟨?_, ?_, ?_, ?_, ?_⟩
  · intro ct hct h1 h2
    have hcond : (ct != "application/x-www-form-urlencoded"
        && ct != "multipart/form-data") = true := by simp [h1, h2]
    rw [contentTypeArgs, hno]
    simp only [Bool.false_eq_true, if_false, inferredContentType, hct, hcond, if_true]
    rw [show "'" ++ CONTENT_TYPE ++ ": " = "'Content-Type: " from by decide]
  · intro ct hct hor
    rw [contentTypeArgs, hno]
    simp only [Bool.false_eq_true, if_false]
    rcases hor with h | h <;> simp [inferredContentType, hct, h]
  · intro hic hb
    refine ⟨?_, ?_, ?_⟩
    · intro s hs
      rw [hs] at hb
      rw [contentTypeArgs, hno]
      simp only [Bool.false_eq_true, if_false, inferredContentType, hic, hs]
      rw [if_pos (by simp [List.isEmpty_eq_false, hb])]
      decide
    · intro bs hs
      rw [hs] at hb
      rw [contentTypeArgs, hno]
      simp only [Bool.false_eq_true, if_false, inferredContentType, hic, hs]
      rw [if_pos (by simp [List.isEmpty_eq_false, hb])]
      decide
    · intro bs fn hs
      rw [hs] at hb
      rw [contentTypeArgs, hno]
      simp only [Bool.false_eq_true, if_false, inferredContentType, hic, hs]
      rw [if_pos (by simp [List.isEmpty_eq_false, hb])]
      decide
  · intro hic hb
    rw [contentTypeArgs, hno]
    simp [inferredContentType, hic, hb]
  · intro ctx
    exact ⟨r.method.curl_args r.has_payload ++ r.headers.flatMap Header.curl_args,
      r.form.flatMap (fun p => ["--data", "'" ++ p.curl_arg_escape ++ "'"])
        ++ r.multipart.flatMap (fun p => ["--form", "'" ++ p.curl_arg ctx ++ "'"])
        ++ bodyArgs r ctx ++ ["'" ++ finalUrl r ++ "'"],
      by simp [RequestSpec.curl_args, List.append_assoc]⟩

/-- Witness for C4: the inference rules applied to concrete requests — the
implicit-type case (GET with implicit "application/json"), the text-body
fallback, the file-body fallback, and the excluded form encoding. -/
theorem c4_content_type_inference_witness :
    contentTypeArgs get_implicit_ct_request
      = ["--header", "'Content-Type: " ++ "application/json" ++ "'"]
    ∧ contentTypeArgs post_text_request = ["--header", "'Content-Type:'"]
    ∧ contentTypeArgs post_file_request = ["--header", "'Content-Type:'"] :=
  ⟨(c4_content_type_inference get_implicit_ct_request (by decide)).1
      "application/json" rfl (by decide) (by decide),
   ((c4_content_type_inference post_text_request (by decide)).2.2.1
      rfl (by decide)).1 "foo" rfl,
   ((c4_content_type_inference post_file_request (by decide)).2.2.1
      rfl (by decide)).2.2 (utf8Bytes "Hello World!") "foo.bin" rfl⟩


/-! C8: the body transfer step. -/

/-- C8: with a non-empty body, the transfer step emits `--data-binary` for a
file body and `--data` otherwise, followed by the rendered body value: a
text body through the shell encoder, a binary body as ANSI-C `\xHH` pairs
with lowercase zero-padded hex (so bytes [1,2,3] render as `$'\x01\x02\x03'`),
and a file body as the single-quoted `@`-prefixed resolved path with no
shell encoding; the pair stands directly before the final URL token. -/
theorem c8_body_transfer (r : RequestSpec) (ctx : ContextDir)
    (h : r.body.bytes ≠ []) :
    bodyArgs r ctx
      = [(match r.body with
          | .file _ _ => "--data-binary"
          | _ => "--data"),
         r.body.curl_arg ctx]
    ∧ (∀ s, r.body = .text s → Body.curl_arg r.body ctx = encode_shell_string s)
    ∧ (∀ bs, r.body = .binary bs → (∀ b ∈ bs, b < 256) →
        Body.curl_arg r.body ctx
          = "$'" ++ String.join (bs.map (fun b =>
              String.mk [backslashC, 'x', lowerHexDigit (b / 16), lowerHexDigit (b % 16)])) ++ "'")
    ∧ (∀ bs fn, r.body = .file bs fn →
        Body.curl_arg r.body ctx = "'@" ++ ctx.resolved_path fn ++ "'")
    ∧ Body.curl_arg (Body.binary [1, 2, 3]) ctx = "$'\\x01\\x02\\x03'"
    ∧ (∃ pre : List String, RequestSpec.curl_args r ctx
        = pre ++ bodyArgs r ctx ++ ["'" ++ finalUrl r ++ "'"]) := by
  have hne : r.body.bytes.isEmpty = false := by
    simp [List.isEmpty_eq_false, h]
  refine ⟨by simp [bodyArgs, hne], ?_, ?_, ?_, rfl, ?_⟩
  · intro s hs
    rw [hs, Body.curl_arg]
  · intro bs hbs hlt
    rw [hbs, Body.curl_arg, encode_bytes]
    have : bs.map encode_byte
        = bs.map (fun b =>
            String.mk [backslashC, 'x', lowerHexDigit (b / 16), lowerHexDigit (b % 16)]) := by
      apply List.map_congr_left
      intro b hb
      have h16 : b / 16 % 16 = b / 16 := Nat.mod_eq_of_lt (by
        have := hlt b hb
        omega)
      rw [encode_byte, h16]
    rw [this]
  · intro bs fn hs
    rw [hs, Body.curl_arg]
  · exact ⟨r.method.curl_args r.has_payload ++ r.headers.flatMap Header.curl_args
      ++ contentTypeArgs r
      ++ r.form.flatMap (fun p => ["--data", "'" ++ p.curl_arg_escape ++ "'"])
      ++ r.multipart.flatMap (fun p => ["--form", "'" ++ p.curl_arg ctx ++ "'"]),
      by simp [RequestSpec.curl_args, List.append_assoc]⟩

/-- Witness for C8: the transfer step of the two `post_data_curl_args`
requests (text body "foo" and file body "foo.bin") and the binary rendering
at bytes [1,2,3]. -/
theorem c8_body_transfer_witness :
    bodyArgs post_text_request defaultCtx
      = ["--data", Body.curl_arg post_text_request.body defaultCtx]
    ∧ Body.curl_arg post_file_request.body defaultCtx
      = "'@" ++ defaultCtx.resolved_path "foo.bin" ++ "'"
    ∧ Body.curl_arg (Body.binary [1, 2, 3]) defaultCtx = "$'\\x01\\x02\\x03'" :=
  ⟨(c8_body_transfer post_text_request defaultCtx (by decide)).1,
   (c8_body_transfer post_file_request defaultCtx (by decide)).2.2.2.1
      (utf8Bytes "Hello World!") "foo.bin" rfl,
   (c8_body_transfer post_text_request defaultCtx (by decide)).2.2.2.2.1⟩

/-! C9: the single-token edge case. The claim quantifies over every request
with no headers, no body and no query parameters; the code refutes that
generality (HEAD emits `--head`, a form parameter adds `--data` pairs and
forces `--request GET`, an implicit content type adds a header pair), and
the single-token conclusion holds once those are excluded. -/

/-- C9 counterexample: three requests with no headers, no body and no query
parameters whose outputs all have more than one token — a HEAD request, a
GET request with one form parameter, and a GET request with an implicit
content type. -/
theorem c9_counterexample :
    RequestSpec.curl_args head_empty_request defaultCtx
      = ["--head", "'http://localhost:8000/'"]
    ∧ RequestSpec.curl_args get_form_request defaultCtx
      = ["--request", "GET", "--data", "'p=v'", "'http://localhost:8000/'"]
    ∧ RequestSpec.curl_args get_implicit_ct_request defaultCtx
      = ["--header", "'Content-Type: application/json'", "'http://localhost:8000/'"] := by
  refine ⟨by decide, by decide, by decide⟩

/-- C9 amended: a GET request with no headers, no query parameters, no form
or multipart parameters, no body bytes and no implicit content type produces
exactly one token, the single-quoted raw URL. -/
theorem c9_amended_single_token (r : RequestSpec) (ctx : ContextDir)
    (h1 : r.method.verb = "GET") (h2 : r.headers = []) (h3 : r.querystring = [])
    (h4 : r.form = []) (h5 : r.multipart = []) (h6 : r.body.bytes = [])
    (h7 : r.implicit_content_type = none) :
    RequestSpec.curl_args r ctx = ["'" ++ r.url.raw ++ "'"] := by
  simp [RequestSpec.curl_args, RequestSpec.has_payload, Method.curl_args,
    contentTypeArgs, HeaderVec.contains_key, inferredContentType, bodyArgs,
    finalUrl, querystringJoined, h1, h2, h3, h4, h5, h6, h7]

/-- Witness for C9 at the empty GET request fixture. -/
theorem c9_amended_single_token_witness :
    RequestSpec.curl_args get_empty_request defaultCtx
      = ["'" ++ get_empty_request.url.raw ++ "'"] :=
  c9_amended_single_token get_empty_request defaultCtx rfl rfl rfl rfl rfl rfl rfl

/-! C10: empty byte placeholders count as no body. -/

/-- C10: with empty form and multipart lists, a body that is a `File` with a
zero-length byte placeholder (or a `Binary` with zero bytes) behaves as no
body at all: the payload flag is false, the transfer step emits nothing, and
the whole output equals that of the same request with an empty text body —
in particular the file variant's filename is never used. -/
theorem c10_empty_placeholder_no_body (r : RequestSpec) (ctx : ContextDir)
    (hf : r.form = []) (hm : r.multipart = [])
    (hb : (∃ fn, r.body = Body.file [] fn) ∨ r.body = Body.binary []) :
    r.has_payload = false
    ∧ bodyArgs r ctx = []
    ∧ RequestSpec.curl_args r ctx
      = RequestSpec.curl_args { r with body := Body.text "" } ctx := by
  have hbytes : r.body.bytes = [] := by
    rcases hb with ⟨fn, hfile⟩ | hbin
    · rw [hfile, Body.bytes]
    · rw [hbin, Body.bytes]
  refine ⟨?_, ?_, ?_⟩
  · simp [RequestSpec.has_payload, hf, hm, hbytes]
  · simp [bodyArgs, hbytes]
  · cases hic : r.implicit_content_type <;>
      simp [RequestSpec.curl_args, RequestSpec.has_payload, bodyArgs,
        contentTypeArgs, inferredContentType, finalUrl, querystringJoined,
        hbytes, hic, show (Body.text "").bytes = [] from rfl]

/-- Witness for C10 at a POST request whose body is `File` with an empty
placeholder and filename "secret.bin". -/
theorem c10_empty_placeholder_no_body_witness :
    RequestSpec.has_payload post_empty_file_request = false
    ∧ bodyArgs post_empty_file_request defaultCtx = []
    ∧ RequestSpec.curl_args post_empty_file_request defaultCtx
      = RequestSpec.curl_args
          { post_empty_file_request with body := Body.text "" } defaultCtx :=
  c10_empty_placeholder_no_body post_empty_file_request defaultCtx rfl rfl
    (Or.inl ⟨"secret.bin", rfl⟩)


/-! C1: the full token-sequence structure. -/

/-- A percent-encoded `name=value` rendering is never the empty string. -/
theorem curl_arg_escape_ne_empty (p : Param) : p.curl_arg_escape ≠ "" := by
  intro hc
  have hd := congrArg String.data hc
  rw [Param.curl_arg_escape, String.data_append, String.data_append] at hd
  simp [show ("=" : String).data = ['='] from rfl] at hd

/-- Joining a non-empty list of non-empty strings with `&` is non-empty. -/
theorem joinAmp_ne_empty (l : List String) (hne : l ≠ [])
    (h : ∀ x ∈ l, x ≠ "") : joinAmp l ≠ "" := by
  cases l with
  | nil => exact absurd rfl hne
  | cons a rest =>
    cases rest with
    | nil => simpa [joinAmp] using h a (by simp)
    | cons b t =>
      intro hc
      rw [show joinAmp (a :: b :: t) = a ++ "&" ++ joinAmp (b :: t) from rfl] at hc
      have hd := congrArg String.data hc
      rw [String.data_append, String.data_append] at hd
      simp [show ("&" : String).data = ['&'] from rfl] at hd

/-- The joined query string is empty exactly when the query list is empty. -/
theorem querystringJoined_eq_empty_iff (r : RequestSpec) :
    querystringJoined r = "" ↔ r.querystring = [] := by
  constructor
  · intro h
    by_contra hq
    have hne : r.querystring.isEmpty = false := by
      simp [List.isEmpty_eq_false, hq]
    rw [querystringJoined, hne] at h
    simp only [Bool.false_eq_true, if_false] at h
    exact joinAmp_ne_empty (r.querystring.map Param.curl_arg_escape)
      (by simp [hq])
      (by
        intro x hx
        rw [List.mem_map] at hx
        obtain ⟨p, hp1, hp2⟩ := hx
        rw [← hp2]
        exact curl_arg_escape_ne_empty p)
      h
  · intro h
    simp [querystringJoined, h]

/-- C1: `curl_args` is exactly the concatenation, in order, of the method
tokens (driven by the payload flag), one shell-encoded `--header` pair per
header in insertion order, the Content-Type inference tokens, one
single-quoted `--data` pair per form parameter with only the value
percent-encoded, one single-quoted `--form` pair per multipart parameter,
the transfer-token pair when the body bytes are non-empty, and finally the
single-quoted URL, which is the raw URL when there are no query parameters
and otherwise the raw URL joined to the `&`-joined percent-encoded query
parameters with `&` when the raw URL contains a question mark and `?`
otherwise; consequently the output is never empty and its last token is
always the single-quoted URL. -/
theorem c1_curl_args_structure (r : RequestSpec) (ctx : ContextDir) :
    RequestSpec.curl_args r ctx
      = r.method.curl_args
          (!r.multipart.isEmpty || !r.form.isEmpty || !r.body.bytes.isEmpty)
        ++ r.headers.flatMap (fun h =>
            ["--header", encode_shell_string (h.name ++ ": " ++ h.value)])
        ++ contentTypeArgs r
        ++ r.form.flatMap (fun p =>
            ["--data", "'" ++ (p.name ++ "=" ++ escape_url p.value) ++ "'"])
        ++ r.multipart.flatMap (fun p =>
            ["--form", "'" ++ p.curl_arg ctx ++ "'"])
        ++ (if r.body.bytes = [] then []
            else [(match r.body with
                   | .file _ _ => "--data-binary"
                   | _ => "--data"),
                  r.body.curl_arg ctx])
        ++ ["'" ++ (if r.querystring = [] then r.url.raw
             else if r.url.raw.data.contains '?' then
               r.url.raw ++ "&"
                 ++ joinAmp (r.querystring.map (fun p => p.name ++ "=" ++ escape_url p.value))
             else
               r.url.raw ++ "?"
                 ++ joinAmp (r.querystring.map (fun p => p.name ++ "=" ++ escape_url p.value)))
             ++ "'"]
    ∧ RequestSpec.curl_args r ctx ≠ []
    ∧ (RequestSpec.curl_args r ctx).getLast? = some ("'" ++ finalUrl r ++ "'") := by
  have hbody : bodyArgs r ctx
      = (if r.body.bytes = [] then []
         else [(match r.body with
                | .file _ _ => "--data-binary"
                | _ => "--data"),
               r.body.curl_arg ctx]) := by
    by_cases hb : r.body.bytes = [] <;> simp [bodyArgs, hb]
  have hurl : finalUrl r
      = (if r.querystring = [] then r.url.raw
         else if r.url.raw.data.contains '?' then
           r.url.raw ++ "&"
             ++ joinAmp (r.querystring.map (fun p => p.name ++ "=" ++ escape_url p.value))
         else
           r.url.raw ++ "?"
             ++ joinAmp (r.querystring.map (fun p => p.name ++ "=" ++ escape_url p.value))) := by
    by_cases hq : r.querystring = []
    · simp [finalUrl, querystringJoined, hq]
    · have hje : querystringJoined r ≠ "" := by
        intro hc
        exact hq ((querystringJoined_eq_empty_iff r).mp hc)
      have hqe : r.querystring.isEmpty = false := by
        simp [List.isEmpty_eq_false, hq]
      simp only [finalUrl]
      rw [if_neg hje, if_neg hq]
      by_cases hqm : r.url.raw.data.contains '?' = true
      · rw [if_pos hqm, if_pos hqm]
        rw [querystringJoined, hqe]
        rfl
      · rw [if_neg hqm, if_neg hqm]
        rw [querystringJoined, hqe]
        rfl
  refine ⟨?_, ?_, ?_⟩
  · rw [RequestSpec.curl_args, ← hbody, ← hurl]
    simp only [RequestSpec.has_payload]
    rfl
  · rw [RequestSpec.curl_args]
    exact List.append_ne_nil_of_right_ne_nil _ (by simp)
  · rw [RequestSpec.curl_args]
    exact List.getLast?_concat _

end Hurl
